import Mathlib

/-!
Verification of the real-time voice session manager of the vulcan-ai client.
The definitions below are a shallow embedding of src/App.tsx: the React state
fields that the live session touches (lines 27-30, 50-51), stopLiveSession
(lines 159-166), startLiveSession (lines 168-202), the onmessage handler
(lines 178-190), the onended completion callback (line 185), the playback
start discipline (lines 183-186), and the capture sample conversion
(lines 197-198). The PCM codec (encodePCM / decodePCM) lives in
services/geminiService, which is not among these sources; it is modelled
from the specification, as marked on its definitions.
-/

namespace Vulcan

/-- The transcription record held in the transcriptions React state
(src/App.tsx line 30): an input buffer and an output buffer, both strings. -/
structure Transcriptions where
  input : String
  output : String
deriving DecidableEq

/-- The mutable state the live session reads and writes, one field per React
state hook or ref of src/App.tsx:
isLiveActive (line 27), isModelSpeaking (line 28), userVolume (line 29,
an RMS value, embedded as a rational), transcriptions (line 30),
audioSources (line 51, the set of in-flight AudioBufferSourceNode handles,
embedded as a finite set of node identities), liveSession (line 50, the
liveSessionRef handle; the code never assigns it, so it stays none in every
reachable state), sessionClosed (whether close() has been requested on the
stored transport handle), captureOpen (whether the getUserMedia stream, the
16 kHz input context and the script processor of lines 172-175 are held),
outputCtxCreated (whether the lazy process-wide 24 kHz output context of
line 170 exists). -/
structure AppState where
  isLiveActive : Bool
  isModelSpeaking : Bool
  userVolume : ℚ
  transcriptions : Transcriptions
  audioSources : Finset ℕ
  liveSession : Option ℕ
  sessionClosed : Bool
  captureOpen : Bool
  outputCtxCreated : Bool
deriving DecidableEq

/-- stopLiveSession, src/App.tsx lines 159-166. In source order: if the
liveSessionRef holds a handle, call close() on it (recorded here by setting
sessionClosed); call stop() on every tracked audio source, each wrapped in
try/catch so failures of already-finished handles are swallowed; clear the
source set; set isLiveActive and isModelSpeaking to false; reset both
transcription buffers to the empty string. The function touches nothing
else: userVolume, the capture resources, the stored liveSession handle and
the output context are left as they are. -/
def stopLiveSession (s : AppState) : AppState :=
  { s with
    sessionClosed := s.sessionClosed || s.liveSession.isSome
    audioSources := ∅
    isLiveActive := false
    isModelSpeaking := false
    transcriptions := { input := "", output := "" } }

/-- The error taxonomy named by the specification for session start. The
code of src/App.tsx never constructs either value; the type exists so that
statements about which errors startLiveSession reports can be written. -/
inductive LiveError
  | alreadyActive
  | captureUnavailable
deriving DecidableEq

/-- The body of the try block of startLiveSession, src/App.tsx lines 169-200,
up to the point where the connect attempt is running. The lazy creation or
reuse of the process-wide output context (line 170) happens first; then
getUserMedia (line 172) either yields the microphone, after which the input
context and script processor are built and connectLive is initiated, or
throws, which this embedding surfaces as captureUnavailable. The outcome of
getUserMedia is the captureOk parameter, standing for the external device
and permission state. The function performs no check of the current session
state: nothing in lines 168-202 inspects isLiveActive before proceeding. -/
def startLiveSessionBody (captureOk : Bool) (s : AppState) : Except LiveError AppState :=
  if captureOk then
    Except.ok { s with outputCtxCreated := true, captureOpen := true }
  else
    Except.error LiveError.captureUnavailable

/-- startLiveSession, src/App.tsx lines 168-202: the try block is
startLiveSessionBody; the catch block (line 201) swallows every raised
error, logs it with console.error, and sets isLiveActive to false. The
second component is the error visible to the caller: the code catches
everything, so it is always none. -/
def startLiveSession (captureOk : Bool) (s : AppState) : AppState × Option LiveError :=
  match startLiveSessionBody captureOk s with
  | Except.ok s1 => (s1, none)
  | Except.error _ => ({ s with outputCtxCreated := true, isLiveActive := false }, none)

/-- An inbound transport message as the onmessage handler of src/App.tsx
lines 178-190 sees it: the optional audio payload
msg.serverContent?.modelTurn?.parts[0]?.inlineData?.data (embedded as an
optional byte list), the optional inputTranscription text and the optional
outputTranscription text. -/
structure ServerMsg where
  audioData : Option (List ℕ)
  inputTranscription : Option String
  outputTranscription : Option String
deriving DecidableEq

/-- The onmessage handler, src/App.tsx lines 178-190, taken as one atomic
event; newId is the identity of the freshly created AudioBufferSourceNode.
If the message carries audio and the output context exists (line 180):
set isModelSpeaking to true, decode and start the node, and add it to the
tracked source set (lines 181-186). If inputTranscription is present
(line 188): replace the input buffer with its text. If outputTranscription
is present (line 189): append its text to the output buffer. -/
def handleMessage (msg : ServerMsg) (newId : ℕ) (s : AppState) : AppState :=
  let s1 :=
    match msg.audioData with
    | some _ =>
      if s.outputCtxCreated then
        { s with isModelSpeaking := true, audioSources := insert newId s.audioSources }
      else s
    | none => s
  let s2 :=
    match msg.inputTranscription with
    | some t => { s1 with transcriptions := { s1.transcriptions with input := t } }
    | none => s1
  match msg.outputTranscription with
  | some t => { s2 with transcriptions := { s2.transcriptions with output := s2.transcriptions.output ++ t } }
  | none => s2

/-- The onended completion callback, src/App.tsx line 185: remove the
finished node from the tracked set; if the set became empty, set
isModelSpeaking to false, otherwise leave it alone. -/
def handleEnded (nodeId : ℕ) (s : AppState) : AppState :=
  { s with
    audioSources := s.audioSources.erase nodeId
    isModelSpeaking :=
      if s.audioSources.erase nodeId = ∅ then false else s.isModelSpeaking }

/-- The event alphabet of the playback scheduler: arrival of an inbound
message (with the identity of the node it would create), or completion of a
previously started node. -/
inductive LiveEvent
  | message (msg : ServerMsg) (newId : ℕ)
  | ended (nodeId : ℕ)

/-- One step of the live session: dispatch an event to its handler. -/
def stepLive (e : LiveEvent) (s : AppState) : AppState :=
  match e with
  | LiveEvent.message msg newId => handleMessage msg newId s
  | LiveEvent.ended nodeId => handleEnded nodeId s

/-- Run a sequence of events from a state, in arrival order. -/
def runLive (evs : List LiveEvent) (s : AppState) : AppState :=
  evs.foldl (fun s e => stepLive e s) s

/-- The speaking-flag invariant: the speaking flag is set exactly when the
set of in-flight playback handles is non-empty. -/
def speakingConsistent (s : AppState) : Prop :=
  s.isModelSpeaking = true ↔ s.audioSources ≠ ∅

/-- An Idle session state: not live, not speaking, no tracked sources,
empty transcripts, no stored transport handle. -/
def isIdle (s : AppState) : Prop :=
  s.isLiveActive = false ∧ s.isModelSpeaking = false ∧ s.audioSources = ∅ ∧
    s.transcriptions = { input := "", output := "" } ∧ s.liveSession = none

/-- Playback start discipline for one audio chunk, src/App.tsx lines
183-186: createBufferSource, connect, node.start() with no argument.
A Web Audio start() call without a when argument begins playback at the
context current time, that is, at the arrival time of the chunk. The
scheduler state is the list of (startTime, endTime) intervals already
issued; now is the arrival time and dur the decoded duration. -/
def scheduleChunk (now dur : ℚ) (scheduled : List (ℚ × ℚ)) : List (ℚ × ℚ) :=
  scheduled ++ [(now, now + dur)]

/-- Issue a whole sequence of chunks, each given as (arrivalTime, duration),
in arrival order. -/
def scheduleAll (chunks : List (ℚ × ℚ)) : List (ℚ × ℚ) :=
  chunks.foldl (fun acc c => scheduleChunk c.1 c.2 acc) []

/-- Two half-open play intervals (start, end) overlap: each starts before
the other ends. -/
def intervalsOverlap (a b : ℚ × ℚ) : Prop :=
  b.1 < a.2 ∧ a.1 < b.2

/-- Wrapping of an integer into the signed 16-bit range, the conversion a
JavaScript Int16Array store applies to an already-truncated value: reduce
modulo 2^16 and re-center into [-32768, 32767]. -/
def int16OfInt (z : ℤ) : ℤ :=
  if z % 65536 < 32768 then z % 65536 else z % 65536 - 65536

/-- Truncation toward zero of a rational, the ToInt16 fractional-part
discard a JavaScript Int16Array store applies to a float value. -/
def truncRat (q : ℚ) : ℤ :=
  if 0 ≤ q then ⌊q⌋ else ⌈q⌉

/-- The capture sample conversion of src/App.tsx line 198:
int16[i] = data[i] * 32768. The product is stored into an Int16Array, so
JavaScript truncates it toward zero and wraps it into the signed 16-bit
range; no clamping is applied anywhere. Samples are embedded as rationals;
multiplication of a float by the power of two 32768 is exact, so the
rational product coincides with the float product. -/
def sampleToInt16 (x : ℚ) : ℤ :=
  int16OfInt (truncRat (x * 32768))

/-- The codec error named by the specification for odd-length input. -/
inductive CodecError
  | malformedFrame
deriving DecidableEq

/-- Modelled from the spec: decodePCM is exported by services/geminiService,
a file that is not among these sources. Following section 4.1 of the
specification it maps a byte sequence to the sequence of signed 16-bit
samples it encodes, pairing consecutive bytes little-endian; an odd-length
input fails with MalformedFrame. -/
def decodePCM : List ℕ → Except CodecError (List ℤ)
  | [] => Except.ok []
  | [_] => Except.error CodecError.malformedFrame
  | lo :: hi :: rest =>
    match decodePCM rest with
    | Except.ok samples =>
      Except.ok (int16OfInt ((lo : ℤ) + 256 * (hi : ℤ)) :: samples)
    | Except.error e => Except.error e

/-- Modelled from the spec: encodePCM is exported by services/geminiService,
a file that is not among these sources. Following section 4.1 of the
specification it is the inverse direction: each signed 16-bit sample is
written as two bytes, low byte first. -/
def encodePCM : List ℤ → List ℕ
  | [] => []
  | v :: rest =>
    (v % 65536).toNat % 256 :: (v % 65536).toNat / 256 :: encodePCM rest

/-- A freshly loaded Idle state: nothing live, volume zero, empty buffers,
no output context yet. -/
def idle0 : AppState :=
  ⟨false, false, 0, ⟨"", ""⟩, ∅, none, false, false, false⟩

/-- An Active-session state used to exercise the event handlers: live, not
yet speaking, output context created, capture held. -/
def ex2 : AppState :=
  ⟨true, false, 0, ⟨"", ""⟩, ∅, none, false, true, true⟩

/-- An Active-session state mid-conversation: speaking, one in-flight
playback handle, a non-zero volume reading and non-empty transcripts. -/
def ex3 : AppState :=
  ⟨true, true, 1/2, ⟨"hold", "spoken"⟩, {3}, none, false, true, true⟩

/-- An Active-session state with empty transcripts, used for the start-call
counterexamples. -/
def ex5 : AppState :=
  ⟨true, false, 0, ⟨"", ""⟩, ∅, none, false, true, true⟩

/-- An Idle state identical to idle0, used for the capture-failure
counterexample. -/
def ex6 : AppState :=
  ⟨false, false, 0, ⟨"", ""⟩, ∅, none, false, false, false⟩

/-- An Active-session state with non-empty transcript buffers, used for the
transcript-reset counterexample. -/
def ex8 : AppState :=
  ⟨true, true, 0, ⟨"latest", "spoken"⟩, ∅, none, false, true, true⟩

/-- Claim C3, counterexample: close() does not reset the volume value to 0
and does not release capture resources. From the active state ex3 with
volume 1/2 and the capture pipeline held, stopLiveSession leaves the volume
at 1/2 and the capture resources held, contradicting the claimed teardown
sequence. -/
theorem c3_close_counterexample :
    (stopLiveSession ex3).userVolume ≠ 0 ∧
    (stopLiveSession ex3).captureOpen = true :=
  ⟨by norm_num [stopLiveSession, ex3], rfl⟩

/-- Claim C3, amended: from any state, close() requests transport shutdown
only when a transport handle was stored (the start path never stores one),
stops and clears all playback handles, sets the live and speaking flags to
false, and resets both transcript buffers to empty; it does not release
capture resources and leaves the volume value unchanged. -/
theorem c3_close_effects (s : AppState) :
    (stopLiveSession s).isLiveActive = false ∧
    (stopLiveSession s).isModelSpeaking = false ∧
    (stopLiveSession s).audioSources = ∅ ∧
    (stopLiveSession s).transcriptions = { input := "", output := "" } ∧
    (stopLiveSession s).sessionClosed = (s.sessionClosed || s.liveSession.isSome) ∧
    (stopLiveSession s).userVolume = s.userVolume ∧
    (stopLiveSession s).captureOpen = s.captureOpen :=
  ⟨rfl, rfl, rfl, rfl, rfl, rfl, rfl⟩

/-- Claim C4: close() is idempotent. Calling stopLiveSession twice in a row
produces the same final state as calling it once, and calling it on a state
that is already Idle leaves the state unchanged; the function is total, so
no error is raised (the per-handle stop() calls are individually wrapped in
try/catch in the source). -/
theorem c4_close_idempotent (s : AppState) :
    stopLiveSession (stopLiveSession s) = stopLiveSession s ∧
    (isIdle s → stopLiveSession s = s) := by
  obtain ⟨a, b, v, t, src, ls, sc, co, oc⟩ := s
  constructor
  · simp [stopLiveSession, Bool.or_assoc]
  · rintro ⟨h1, h2, h3, h4, h5⟩
    simp_all [stopLiveSession]

/-- Witness for claim C4: on the concrete Idle state idle0, close() is a
no-op. -/
theorem c4_close_idempotent_witness : stopLiveSession idle0 = idle0 :=
  (c4_close_idempotent idle0).2 ⟨rfl, rfl, rfl, rfl, rfl⟩

/-- Claim C5, counterexample: a start() call while the session is Active is
not rejected with AlreadyActive. On the active state ex5 the call returns
no error at all to the caller. -/
theorem c5_no_reject_counterexample :
    (startLiveSession true ex5).2 = none ∧
    (startLiveSession true ex5).2 ≠ some LiveError.alreadyActive :=
  ⟨rfl, by decide⟩

/-- Claim C5, amended: startLiveSession performs no already-active guard.
No AlreadyActive error exists anywhere in the call: the try body never
raises it, and the catch-all handler means the caller receives no error
from any call, whatever the session state. -/
theorem c5_start_never_rejected (ok : Bool) (s : AppState) :
    (startLiveSession ok s).2 = none ∧
    startLiveSessionBody ok s ≠ Except.error LiveError.alreadyActive := by
  cases ok <;> constructor <;> simp [startLiveSession, startLiveSessionBody]

/-- Claim C6, counterexample: when microphone acquisition fails, start()
does not report CaptureUnavailable to the caller. The try body of the
source does fail on getUserMedia, but the catch-all of line 201 swallows
the error, so the caller receives none. -/
theorem c6_swallowed_error_counterexample :
    startLiveSessionBody false ex6 = Except.error LiveError.captureUnavailable ∧
    (startLiveSession false ex6).2 = none ∧
    (startLiveSession false ex6).2 ≠ some LiveError.captureUnavailable :=
  ⟨rfl, rfl, by decide⟩

/-- Claim C6, amended: if microphone acquisition fails during start(), the
error is caught and logged internally rather than reported to the caller;
the controller never transitions to Active, and no session state is
created: the capture flag, handle set, transcripts, volume and stored
transport handle are all unchanged (only the process-wide output context
may have been lazily created, which the specification permits). -/
theorem c6_capture_fail_effects (s : AppState) :
    (startLiveSession false s).1.isLiveActive = false ∧
    (startLiveSession false s).2 = none ∧
    (startLiveSession false s).1.captureOpen = s.captureOpen ∧
    (startLiveSession false s).1.audioSources = s.audioSources ∧
    (startLiveSession false s).1.transcriptions = s.transcriptions ∧
    (startLiveSession false s).1.userVolume = s.userVolume ∧
    (startLiveSession false s).1.liveSession = s.liveSession :=
  ⟨rfl, rfl, rfl, rfl, rfl, rfl, rfl⟩

/-- Claim C8, counterexample: the output transcript buffer is not reset on
session start, and it is reset on session close. On the state ex8 whose
output buffer holds the text spoken, startLiveSession leaves the buffer
untouched while stopLiveSession clears it, contradicting reset only on
session start. -/
theorem c8_output_reset_counterexample :
    (startLiveSession true ex8).1.transcriptions.output = "spoken" ∧
    (stopLiveSession ex8).transcriptions.output = "" :=
  ⟨rfl, rfl⟩

/-- Claim C8, amended: every inbound input-transcript delta replaces the
input buffer with the delta text, every inbound output-transcript delta
appends its text to the output buffer (so the output buffer is append-only
under message handling), and the output buffer is reset on session close
(stopLiveSession), not on session start. -/
theorem c8_transcript_effects (msg : ServerMsg) (newId : ℕ) (s : AppState) :
    (handleMessage msg newId s).transcriptions.input =
      (match msg.inputTranscription with
       | some t => t
       | none => s.transcriptions.input) ∧
    (handleMessage msg newId s).transcriptions.output =
      (match msg.outputTranscription with
       | some t => s.transcriptions.output ++ t
       | none => s.transcriptions.output) ∧
    (stopLiveSession s).transcriptions.output = "" := by
  obtain ⟨a, it, ot⟩ := msg
  refine ⟨?_, ?_, rfl⟩ <;>
    cases a <;> cases it <;> cases ot <;>
      first
        | rfl
        | (by_cases hc : s.outputCtxCreated <;> simp [handleMessage, hc])

/-- Claim C10: an inbound message with no audio payload, no input
transcription and no output transcription leaves the state unchanged: the
onmessage handler takes none of its three branches. -/
theorem c10_empty_message_noop (msg : ServerMsg) (newId : ℕ) (s : AppState)
    (ha : msg.audioData = none) (hi : msg.inputTranscription = none)
    (ho : msg.outputTranscription = none) :
    handleMessage msg newId s = s := by
  obtain ⟨a, it, ot⟩ := msg
  cases a with
  | some d => simp at ha
  | none =>
    cases it with
    | some t => simp at hi
    | none =>
      cases ot with
      | some t => simp at ho
      | none => rfl

/-- Witness for claim C10: the concrete empty message leaves the concrete
mid-session state ex3 unchanged. -/
theorem c10_empty_message_noop_witness :
    handleMessage ⟨none, none, none⟩ 0 ex3 = ex3 :=
  c10_empty_message_noop ⟨none, none, none⟩ 0 ex3 rfl rfl rfl

/-- Claim C1, counterexample: chunks are not scheduled gaplessly. A first
chunk arrives at time 0 with duration 2 and a second arrives at time 1,
before the first finishes (1 < 0 + 2). The claim requires the second start
time to equal the end time 0 + 2 of the first chunk; the code starts it at
its arrival time 1 instead, and the two play intervals overlap. -/
theorem c1_overlap_counterexample :
    scheduleAll [((0 : ℚ), 2), (1, 2)] = [(0, 2), (1, 3)] ∧
    (1 : ℚ) < 0 + 2 ∧
    ¬ ((1 : ℚ) = 0 + 2) ∧
    intervalsOverlap (0, 2) (1, 3) :=
  ⟨by norm_num [scheduleAll, scheduleChunk], by norm_num, by norm_num,
    by constructor <;> norm_num⟩

/-- Claim C1, amended: each chunk is started immediately at its own arrival
time; the end time of the previously scheduled chunk is never consulted.
Consequently, whenever a chunk arrives before the previous chunk finishes,
its start time equals its arrival time, not the previous end time, and the
two play intervals overlap. -/
theorem c1_immediate_start (t1 d1 t2 d2 : ℚ)
    (horder : t1 ≤ t2) (hearly : t2 < t1 + d1) (hdur : 0 < d2) :
    scheduleAll [(t1, d1), (t2, d2)] = [(t1, t1 + d1), (t2, t2 + d2)] ∧
    intervalsOverlap (t1, t1 + d1) (t2, t2 + d2) :=
  ⟨rfl, hearly, show t1 < t2 + d2 by linarith⟩

/-- Witness for claim C1 amended: the concrete two-chunk run of the
counterexample instantiates the amended statement. -/
theorem c1_immediate_start_witness :
    scheduleAll [((0 : ℚ), 2), (1, 2)] = [(0, (0 : ℚ) + 2), (1, (1 : ℚ) + 2)] ∧
    intervalsOverlap (0, (0 : ℚ) + 2) (1, (1 : ℚ) + 2) :=
  c1_immediate_start 0 2 1 2 (by norm_num) (by norm_num) (by norm_num)

/-- Every event handler preserves the speaking-flag invariant: message
arrival either leaves the flag and the handle set alone or sets the flag
while inserting a handle, and completion clears the flag exactly when the
last handle is removed. -/
theorem stepLive_speakingConsistent (e : LiveEvent) (s : AppState)
    (h : speakingConsistent s) : speakingConsistent (stepLive e s) := by
  cases e with
  | message msg newId =>
    obtain ⟨a, it, ot⟩ := msg
    cases a with
    | none =>
      cases it <;> cases ot <;>
        simpa [stepLive, handleMessage, speakingConsistent] using h
    | some d =>
      by_cases hc : s.outputCtxCreated
      · cases it <;> cases ot <;>
          simp [stepLive, handleMessage, hc, speakingConsistent,
            Finset.insert_ne_empty]
      · cases it <;> cases ot <;>
          simpa [stepLive, handleMessage, hc, speakingConsistent] using h
  | ended nodeId =>
    by_cases hr : s.audioSources.erase nodeId = ∅
    · simp [stepLive, handleEnded, hr, speakingConsistent]
    · have hne : s.audioSources ≠ ∅ := by
        intro he
        apply hr
        rw [he]
        exact Finset.erase_empty _
      simp [stepLive, handleEnded, hr, speakingConsistent, h.mpr hne]

/-- Claim C2: for any sequence of message-arrival and playback-completion
events, if the speaking flag agrees with non-emptiness of the handle set
initially, it agrees after every event; in particular after the whole
sequence. -/
theorem c2_speaking_invariant (evs : List LiveEvent) (s : AppState)
    (h : speakingConsistent s) : speakingConsistent (runLive evs s) := by
  induction evs generalizing s with
  | nil => simpa [runLive] using h
  | cons e evs ih =>
    have h1 := stepLive_speakingConsistent e s h
    simpa [runLive] using ih (stepLive e s) h1

/-- Witness for claim C2: a concrete run from the active state ex2, with an
audio message creating handle 7 followed by the completion of handle 7,
ends in a consistent state. -/
theorem c2_speaking_invariant_witness :
    speakingConsistent
      (runLive [LiveEvent.message ⟨some [0], none, none⟩ 7, LiveEvent.ended 7] ex2) :=
  c2_speaking_invariant _ ex2 (by simp [speakingConsistent, ex2])

/-- Claim C7: for every capture sample x in [-1, 1], the conversion
multiplies by 32768 and truncates toward zero, not rounding: the truncated
magnitude never exceeds the scaled magnitude and falls short of it by less
than one. No clamping is performed: the truncated value ranges over
[-32768, 32768], one step past the int16 maximum 32767, and when it does
overflow the Int16Array store wraps it to -32768 rather than saturating. -/
theorem c7_scale_truncate_no_clamp (x : ℚ) (h1 : -1 ≤ x) (h2 : x ≤ 1) :
    |(truncRat (x * 32768) : ℚ)| ≤ |x * 32768| ∧
    |x * 32768| < |(truncRat (x * 32768) : ℚ)| + 1 ∧
    -32768 ≤ truncRat (x * 32768) ∧
    truncRat (x * 32768) ≤ 32768 ∧
    (32767 < truncRat (x * 32768) → sampleToInt16 x = -32768) := by
  have hvlb : (-32768 : ℚ) ≤ x * 32768 := by linarith
  have hvub : x * 32768 ≤ 32768 := by linarith
  by_cases h0 : (0 : ℚ) ≤ x * 32768
  · have ht : truncRat (x * 32768) = ⌊x * 32768⌋ := if_pos h0
    have hf0 : 0 ≤ ⌊x * 32768⌋ := Int.floor_nonneg.mpr h0
    have hf0q : (0 : ℚ) ≤ ((⌊x * 32768⌋ : ℤ) : ℚ) := by exact_mod_cast hf0
    have hfle : ((⌊x * 32768⌋ : ℤ) : ℚ) ≤ x * 32768 := Int.floor_le _
    have hflt : x * 32768 < ((⌊x * 32768⌋ : ℤ) : ℚ) + 1 := Int.lt_floor_add_one _
    have hub : ⌊x * 32768⌋ ≤ 32768 := by
      have h32 : ((⌊x * 32768⌋ : ℤ) : ℚ) ≤ ((32768 : ℤ) : ℚ) := by
        push_cast
        linarith
      exact_mod_cast h32
    refine ⟨?_, ?_, ?_, ?_, ?_⟩
    · rw [ht, abs_of_nonneg hf0q, abs_of_nonneg h0]
      exact hfle
    · rw [ht, abs_of_nonneg hf0q, abs_of_nonneg h0]
      exact hflt
    · rw [ht]
      omega
    · rw [ht]
      exact hub
    · intro hgt
      rw [ht] at hgt
      have h68 : ⌊x * 32768⌋ = 32768 := by omega
      simp only [sampleToInt16, ht, h68]
      decide
  · have hvneg : x * 32768 < 0 := not_le.mp h0
    have ht : truncRat (x * 32768) = ⌈x * 32768⌉ := if_neg h0
    have hc0 : ⌈x * 32768⌉ ≤ 0 := by
      have hle : x * 32768 ≤ ((0 : ℤ) : ℚ) := by
        push_cast
        linarith
      exact Int.ceil_le.mpr hle
    have hc0q : ((⌈x * 32768⌉ : ℤ) : ℚ) ≤ 0 := by exact_mod_cast hc0
    have hcle : x * 32768 ≤ ((⌈x * 32768⌉ : ℤ) : ℚ) := Int.le_ceil _
    have hclt : ((⌈x * 32768⌉ : ℤ) : ℚ) < x * 32768 + 1 := Int.ceil_lt_add_one _
    have hlb : -32768 ≤ ⌈x * 32768⌉ := by
      have h32 : ((-32768 : ℤ) : ℚ) ≤ ((⌈x * 32768⌉ : ℤ) : ℚ) := by
        push_cast
        linarith
      exact_mod_cast h32
    refine ⟨?_, ?_, ?_, ?_, ?_⟩
    · rw [ht, abs_of_nonpos hc0q, abs_of_nonpos (le_of_lt hvneg)]
      linarith
    · rw [ht, abs_of_nonpos hc0q, abs_of_nonpos (le_of_lt hvneg)]
      linarith
    · rw [ht]
      exact hlb
    · rw [ht]
      omega
    · intro hgt
      rw [ht] at hgt
      exact absurd hgt (by omega)

/-- Witness for claim C7: the instantiation at the full-scale sample 1,
whose scaled truncation is 32768, one step past the int16 maximum, so the
stored value wraps to -32768. -/
theorem c7_scale_truncate_no_clamp_witness :
    |(truncRat ((1 : ℚ) * 32768) : ℚ)| ≤ |(1 : ℚ) * 32768| ∧
    |(1 : ℚ) * 32768| < |(truncRat ((1 : ℚ) * 32768) : ℚ)| + 1 ∧
    -32768 ≤ truncRat ((1 : ℚ) * 32768) ∧
    truncRat ((1 : ℚ) * 32768) ≤ 32768 ∧
    (32767 < truncRat ((1 : ℚ) * 32768) → sampleToInt16 1 = -32768) :=
  c7_scale_truncate_no_clamp 1 (by norm_num) le_rfl

/-- One decoded sample re-encodes to its two source bytes: for bytes lo and
hi below 256, the wrapped sample of the little-endian pair recovers lo as
its low byte and hi as its high byte. -/
theorem encode_sample_bytes (lo hi : ℕ) (hlo : lo < 256) (hhi : hi < 256) :
    (int16OfInt ((lo : ℤ) + 256 * (hi : ℤ)) % 65536).toNat % 256 = lo ∧
    (int16OfInt ((lo : ℤ) + 256 * (hi : ℤ)) % 65536).toNat / 256 = hi := by
  have h1 : ((lo : ℤ) + 256 * (hi : ℤ)) % 65536 = (lo : ℤ) + 256 * (hi : ℤ) := by
    omega
  unfold int16OfInt
  rw [h1]
  by_cases hlt : (lo : ℤ) + 256 * (hi : ℤ) < 32768
  · rw [if_pos hlt, h1]
    constructor <;> omega
  · rw [if_neg hlt]
    have h2 : ((lo : ℤ) + 256 * (hi : ℤ) - 65536) % 65536
        = (lo : ℤ) + 256 * (hi : ℤ) := by
      omega
    rw [h2]
    constructor <;> omega

/-- Claim C9: for every byte sequence of even length, decoding to int16
samples succeeds and re-encoding reproduces the byte sequence exactly;
decode and encode are mutual inverses on even-length inputs. -/
theorem c9_codec_round_trip :
    ∀ b : List ℕ, b.length % 2 = 0 → (∀ x ∈ b, x < 256) →
      ∃ samples, decodePCM b = Except.ok samples ∧ encodePCM samples = b
  | [], _, _ => ⟨[], rfl, rfl⟩
  | [x], h2, _ => by simp at h2
  | lo :: hi :: rest, h2, hlt => by
    have h2r : rest.length % 2 = 0 := by
      simp [List.length_cons] at h2
      omega
    have hltr : ∀ x ∈ rest, x < 256 := fun x hx => hlt x (by simp [hx])
    obtain ⟨samples, hs, he⟩ := c9_codec_round_trip rest h2r hltr
    refine ⟨int16OfInt ((lo : ℤ) + 256 * (hi : ℤ)) :: samples, ?_, ?_⟩
    · simp [decodePCM, hs]
    · have hlo : lo < 256 := hlt lo (by simp)
      have hhi : hi < 256 := hlt hi (by simp)
      have hb := encode_sample_bytes lo hi hlo hhi
      simp [encodePCM, he, hb.1, hb.2]

/-- Witness for claim C9: the concrete even-length byte sequence
[1, 128, 255, 127] decodes and re-encodes to itself. -/
theorem c9_codec_round_trip_witness :
    ∃ samples, decodePCM [1, 128, 255, 127] = Except.ok samples ∧
      encodePCM samples = [1, 128, 255, 127] :=
  c9_codec_round_trip [1, 128, 255, 127] (by decide) (by decide)

end Vulcan
